import Mathlib

/-!
Shallow embedding of the authentication service of the bookingss2 repository
(src/api/auth/authService.ts and src/api/user/userRepository.ts).

Password hashing (bcryptjs) and token signing (jsonwebtoken) are modelled as
idealized constructors that record their inputs: bcrypt comparison succeeds
exactly when the candidate plaintext equals the plaintext the hash was built
from, and a signed token records its payload, signing secret and expiry.
The backing store is a list of user records together with an optional fault;
when the fault is set, every store call raises, which the service's failure
boundary converts to a Failed/500 envelope, exactly as the try/catch blocks
in the source do.
-/

/-- Idealized bcrypt hash value: records the cost factor, the salt and the
plaintext it was produced from, so that the one-way comparison can be
modelled exactly without modelling the bcrypt algorithm itself. -/
structure BHash where
  cost : Nat
  salt : Nat
  plain : String
  deriving DecidableEq, Repr

/-- Model of bcrypt.hash (and bcrypt.genSalt followed by bcrypt.hash): the
fresh random salt is passed in explicitly as a nondeterminism input. -/
def bcryptHash (cost salt : Nat) (plain : String) : BHash :=
  { cost := cost, salt := salt, plain := plain }

/-- Model of bcrypt.compare: succeeds exactly when the candidate plaintext
matches the plaintext the stored hash was produced from. -/
def bcryptCompare (password : String) (h : BHash) : Bool :=
  password == h.plain

/-- Payload of a signed token: login and loginWeb sign an object with a
single field id, generateRefreshToken signs an object with a single field
userId. -/
inductive JwtPayload
  | idPayload (id : String)
  | userIdPayload (userId : String)
  deriving DecidableEq, Repr

/-- Idealized signed token: records payload, signing secret and the
expiresIn option passed to jwt.sign, as a tamper-evident value. Decoding a
token recovers its payload field. -/
structure Jwt where
  payload : JwtPayload
  secret : String
  expiresIn : String
  deriving DecidableEq, Repr

/-- Model of jwt.sign. -/
def jwtSign (p : JwtPayload) (secret expiresIn : String) : Jwt :=
  { payload := p, secret := secret, expiresIn := expiresIn }

/-- Process environment as the service reads it: the two independent
signing-secret variables, each possibly unset. -/
structure Env where
  JWT_SECRET : Option String
  TOKEN_SECRET : Option String
  deriving DecidableEq, Repr

/-- Effective primary signing secret: process.env.JWT_SECRET with the
fallback used by login. -/
def jwtSecret (env : Env) : String :=
  env.JWT_SECRET.getD "default_secret"

/-- Effective web-login signing secret: process.env.TOKEN_SECRET with the
fallback used by loginWeb and generateRefreshToken. -/
def tokenSecret (env : Env) : String :=
  env.TOKEN_SECRET.getD "default_secret"

/-- User record, with the fields the service reads and writes
(userModel / IUser in the source). The password field holds the idealized
bcrypt hash. -/
structure User where
  IdUser : String
  email : String
  password : BHash
  Role : String
  name : String
  phoneNumber : String
  Date : String
  Gender : String
  Avatar : String
  age : String
  IdDoctor : String
  deriving DecidableEq, Repr

/-- Backing store: the persisted user records plus an optional fault.
When the fault is set, every store call raises an error carrying the given
message, which the service's try/catch converts to a Failed/500 envelope. -/
structure Store where
  users : List User
  fault : Option String
  deriving DecidableEq, Repr

/-- Model of userRepository.findByEmailAsync / User.findOne on email:
either a store-level error, or the first record whose email matches. -/
def findByEmail (store : Store) (email : String) : Except String (Option User) :=
  match store.fault with
  | some m => Except.error m
  | none => Except.ok (store.users.find? (fun u => u.email == email))

/-- Status of a service result envelope (ResponseStatus in the source). -/
inductive ResponseStatus
  | Success
  | Failed
  deriving DecidableEq, Repr

/-- Service result envelope (ServiceResponse in the source): status,
human-readable message, optional typed payload, numeric status code. -/
structure ServiceResponse (α : Type) where
  status : ResponseStatus
  message : String
  responseObject : Option α
  statusCode : Nat
  deriving DecidableEq, Repr

/-- Payload of a successful login: the access token and the refresh token
(ILoginResponse in the source). -/
structure LoginResponse where
  token : Jwt
  refreshToken : Jwt
  deriving DecidableEq, Repr

/-- Model of authService.login: look the user up by email; absent or
password mismatch yield the single indistinguishable Failed/422 envelope;
on match sign an access token (expiry 1d) and a refresh token (expiry 2d),
both with the primary secret, payload the user's id; a store fault is
caught by the failure boundary and surfaces as Failed/500. -/
def login (env : Env) (store : Store) (email password : String) :
    ServiceResponse LoginResponse :=
  match findByEmail store email with
  | Except.error m =>
    { status := ResponseStatus.Failed
      message := "Error during login: " ++ m
      responseObject := none
      statusCode := 500 }
  | Except.ok none =>
    { status := ResponseStatus.Failed
      message := "Email or Password is not correct"
      responseObject := none
      statusCode := 422 }
  | Except.ok (some user) =>
    if bcryptCompare password user.password then
      let payload := JwtPayload.idPayload user.IdUser
      { status := ResponseStatus.Success
        message := "Login successfully"
        responseObject := some
          { token := jwtSign payload (jwtSecret env) "1d"
            refreshToken := jwtSign payload (jwtSecret env) "2d" }
        statusCode := 200 }
    else
      { status := ResponseStatus.Failed
        message := "Email or Password is not correct"
        responseObject := none
        statusCode := 422 }

/-- Model of authService.loginWeb: like login but the looked-up user's role
must equal the manager role before the password is compared, and the tokens
are signed with the web-login secret. Role mismatch fails identically to
wrong credentials. -/
def loginWeb (env : Env) (store : Store) (email password : String) :
    ServiceResponse LoginResponse :=
  match findByEmail store email with
  | Except.error m =>
    { status := ResponseStatus.Failed
      message := "Error during login: " ++ m
      responseObject := none
      statusCode := 500 }
  | Except.ok none =>
    { status := ResponseStatus.Failed
      message := "Email or Password is not correct"
      responseObject := none
      statusCode := 422 }
  | Except.ok (some user) =>
    if user.Role != "client-manager" then
      { status := ResponseStatus.Failed
        message := "Email or Password is not correct"
        responseObject := none
        statusCode := 422 }
    else if bcryptCompare password user.password then
      { status := ResponseStatus.Success
        message := "Login successfully"
        responseObject := some
          { token := jwtSign (JwtPayload.idPayload user.IdUser) (tokenSecret env) "1d"
            refreshToken := jwtSign (JwtPayload.idPayload user.IdUser) (tokenSecret env) "2d" }
        statusCode := 200 }
    else
      { status := ResponseStatus.Failed
        message := "Email or Password is not correct"
        responseObject := none
        statusCode := 422 }

/-- Registration request body (IRegisterRequest in the source). -/
structure RegisterRequest where
  name : String
  email : String
  password : String
  confirmPassword : String
  deriving DecidableEq, Repr

/-- Model of authService.register: the email-existence check runs first,
then the password/confirmPassword comparison; only then is the password
hashed (fresh salt passed in explicitly, cost 10) and the record created
with role fixed to client-user and empty profile fields. Returns the
envelope together with the post-call store state. -/
def register (salt : Nat) (store : Store) (req : RegisterRequest) :
    ServiceResponse User × Store :=
  match findByEmail store req.email with
  | Except.error m =>
    ({ status := ResponseStatus.Failed
       message := "Error during registration: " ++ m
       responseObject := none
       statusCode := 500 }, store)
  | Except.ok (some _) =>
    ({ status := ResponseStatus.Failed
       message := "Email is already in use"
       responseObject := none
       statusCode := 422 }, store)
  | Except.ok none =>
    if req.password != req.confirmPassword then
      ({ status := ResponseStatus.Failed
         message := "Passwords do not match"
         responseObject := none
         statusCode := 422 }, store)
    else
      let hashPassword := bcryptHash 10 salt req.password
      let newUser : User :=
        { IdUser := ""
          email := req.email
          password := hashPassword
          Role := "client-user"
          name := req.name
          phoneNumber := ""
          Date := ""
          Gender := ""
          Avatar := ""
          age := ""
          IdDoctor := "" }
      ({ status := ResponseStatus.Success
         message := "User registered successfully"
         responseObject := some newUser
         statusCode := 200 },
       { store with users := store.users ++ [newUser] })

/-- Payload of the email-existence probe (ICheckAccountExited in the
source, field isExited). -/
structure CheckAccountExited where
  isExited : Bool
  deriving DecidableEq, Repr

/-- Model of authService.checkEmailExist: look the email up and return
Success/200 either way, with the boolean recording existence; only a
store-level fault reaches the catch and yields Failed/500. -/
def checkEmailExist (store : Store) (email : String) :
    ServiceResponse CheckAccountExited :=
  match findByEmail store email with
  | Except.error m =>
    { status := ResponseStatus.Failed
      message := "Error checking email existence: " ++ m
      responseObject := none
      statusCode := 500 }
  | Except.ok (some _) =>
    { status := ResponseStatus.Success
      message := "Email exists"
      responseObject := some { isExited := true }
      statusCode := 200 }
  | Except.ok none =>
    { status := ResponseStatus.Success
      message := "Email does not exist"
      responseObject := some { isExited := false }
      statusCode := 200 }

/-- Payload of generateRefreshToken (IRefreshTokenType in the source). -/
structure RefreshTokenType where
  refreshToken : Jwt
  deriving DecidableEq, Repr

/-- Model of authService.generateRefreshToken: signs a payload with the
single field userId, expiry 7d, with the TOKEN_SECRET-based secret, and
returns Success/200; it touches no store state. -/
def generateRefreshToken (env : Env) (userId : String) :
    ServiceResponse RefreshTokenType :=
  { status := ResponseStatus.Success
    message := "Refresh token generated successfully"
    responseObject := some
      { refreshToken := jwtSign (JwtPayload.userIdPayload userId) (tokenSecret env) "7d" }
    statusCode := 200 }

/-- Model of userRepository.changePasswordAsync: hash the supplied
plaintext with bcrypt at cost 10 (fresh salt passed in explicitly), then
overwrite the password field of the record with the given id, returning
the post-update record (or none when the id is absent) together with the
post-call store; a store fault raises. -/
def changePasswordAsync (salt : Nat) (store : Store) (id newPassword : String) :
    Except String (Option User × Store) :=
  match store.fault with
  | some m => Except.error m
  | none =>
    let hashPassword := bcryptHash 10 salt newPassword
    match store.users.find? (fun u => u.IdUser == id) with
    | none => Except.ok (none, store)
    | some u =>
      let updated := { u with password := hashPassword }
      Except.ok (some updated,
        { store with
            users := store.users.map (fun v => if v.IdUser == id then updated else v) })

/-- Envelope invariant of the spec: a Failed envelope carries no payload, a
Success envelope has a 200-range status code, and a Failed envelope has a
4xx or 5xx status code. -/
def envelopeOk {α : Type} (r : ServiceResponse α) : Prop :=
  (r.status = ResponseStatus.Failed → r.responseObject = none) ∧
  (r.status = ResponseStatus.Success → 200 ≤ r.statusCode ∧ r.statusCode < 300) ∧
  (r.status = ResponseStatus.Failed → 400 ≤ r.statusCode ∧ r.statusCode < 600)

/-- Sample registered non-manager user for concrete evaluations. -/
def alice : User :=
  { IdUser := "u1"
    email := "alice@example.com"
    password := bcryptHash 10 3 "secret123"
    Role := "client-user"
    name := "Alice"
    phoneNumber := ""
    Date := ""
    Gender := ""
    Avatar := ""
    age := ""
    IdDoctor := "" }

/-- Sample registered manager user for concrete evaluations. -/
def bella : User :=
  { IdUser := "u2"
    email := "bella@example.com"
    password := bcryptHash 10 4 "mgrpass"
    Role := "client-manager"
    name := "Bella"
    phoneNumber := ""
    Date := ""
    Gender := ""
    Avatar := ""
    age := ""
    IdDoctor := "" }

/-- Sample fault-free store holding the two sample users. -/
def sampleStore : Store :=
  { users := [alice, bella], fault := none }

/-- Sample environment in which the two signing secrets differ. -/
def sampleEnv : Env :=
  { JWT_SECRET := some "primary-secret", TOKEN_SECRET := some "web-secret" }

/-- C1: for every registered user, login with that user's email and correct
password returns Success with status 200 and a payload whose access token
expires in 1 day and refresh token in 2 days, both signed with the primary
signing secret, with the user's id as embedded identifier. -/
theorem login_correct_password_success (env : Env) (store : Store)
    (email password : String) (u : User)
    (hf : store.fault = none)
    (hu : store.users.find? (fun v => v.email == email) = some u)
    (hp : bcryptCompare password u.password = true) :
    login env store email password =
      { status := ResponseStatus.Success
        message := "Login successfully"
        responseObject := some
          { token := jwtSign (JwtPayload.idPayload u.IdUser) (jwtSecret env) "1d"
            refreshToken := jwtSign (JwtPayload.idPayload u.IdUser) (jwtSecret env) "2d" }
        statusCode := 200 } := by
  simp [login, findByEmail, hf, hu, hp]

/-- Witness for C1 at a concrete store, user and environment. -/
theorem login_correct_password_success_witness :
    login sampleEnv sampleStore "alice@example.com" "secret123" =
      { status := ResponseStatus.Success
        message := "Login successfully"
        responseObject := some
          { token := jwtSign (JwtPayload.idPayload "u1") "primary-secret" "1d"
            refreshToken := jwtSign (JwtPayload.idPayload "u1") "primary-secret" "2d" }
        statusCode := 200 } :=
  login_correct_password_success sampleEnv sampleStore "alice@example.com"
    "secret123" alice rfl (by decide) (by decide)

/-- C2: for every store state and email/password pair, login with an email
that has no account and login with an existing email but an incorrect
password both return the exact same Failed/422 envelope with message
"Email or Password is not correct", so the two failure causes are
indistinguishable to the caller. -/
theorem login_failure_indistinguishable (env : Env) (store : Store)
    (email password : String)
    (hf : store.fault = none)
    (hcase : store.users.find? (fun v => v.email == email) = none ∨
      ∃ u, store.users.find? (fun v => v.email == email) = some u ∧
        bcryptCompare password u.password = false) :
    login env store email password =
      { status := ResponseStatus.Failed
        message := "Email or Password is not correct"
        responseObject := none
        statusCode := 422 } := by
  rcases hcase with h | ⟨u, hu, hp⟩
  · simp [login, findByEmail, hf, h]
  · simp [login, findByEmail, hf, hu, hp]

/-- Witness for C2: a wrong password for an existing account yields the
shared failure envelope at a concrete store. -/
theorem login_failure_indistinguishable_witness :
    login sampleEnv sampleStore "alice@example.com" "wrong" =
      { status := ResponseStatus.Failed
        message := "Email or Password is not correct"
        responseObject := none
        statusCode := 422 } :=
  login_failure_indistinguishable sampleEnv sampleStore "alice@example.com"
    "wrong" rfl (Or.inr ⟨alice, by decide, by decide⟩)

/-- C3: loginWeb returns Success only when the looked-up user's role equals
client-manager, and a user with correct email and password but a
non-manager role gets the same Failed/422 envelope as wrong credentials. -/
theorem loginWeb_manager_gate (env : Env) (store : Store)
    (email password : String)
    (hf : store.fault = none) :
    ((loginWeb env store email password).status = ResponseStatus.Success →
      ∃ u, store.users.find? (fun v => v.email == email) = some u ∧
        u.Role = "client-manager") ∧
    (∀ u, store.users.find? (fun v => v.email == email) = some u →
      bcryptCompare password u.password = true →
      u.Role ≠ "client-manager" →
      loginWeb env store email password =
        { status := ResponseStatus.Failed
          message := "Email or Password is not correct"
          responseObject := none
          statusCode := 422 }) := by
  constructor
  · intro hs
    cases hu : store.users.find? (fun v => v.email == email) with
    | none => simp [loginWeb, findByEmail, hf, hu] at hs
    | some u =>
      refine ⟨u, rfl, ?_⟩
      by_cases hr : u.Role = "client-manager"
      · exact hr
      · simp [loginWeb, findByEmail, hf, hu, hr] at hs
  · intro u hu _hp hr
    simp [loginWeb, findByEmail, hf, hu, hr]

/-- Witness for C3: a concrete non-manager user with the correct password
is rejected by loginWeb with the wrong-credentials envelope. -/
theorem loginWeb_manager_gate_witness :
    loginWeb sampleEnv sampleStore "alice@example.com" "secret123" =
      { status := ResponseStatus.Failed
        message := "Email or Password is not correct"
        responseObject := none
        statusCode := 422 } :=
  (loginWeb_manager_gate sampleEnv sampleStore "alice@example.com" "secret123"
    rfl).2 alice (by decide) (by decide) (by decide)

/-- C4: when the requested email already has an account and the password
differs from confirmPassword, register fails with the duplicate-email
envelope: the existence check precedes the password-match check. -/
theorem register_duplicate_email_wins (salt : Nat) (store : Store)
    (req : RegisterRequest) (u : User)
    (hf : store.fault = none)
    (hu : store.users.find? (fun v => v.email == req.email) = some u)
    (_hp : req.password ≠ req.confirmPassword) :
    (register salt store req).1 =
      { status := ResponseStatus.Failed
        message := "Email is already in use"
        responseObject := none
        statusCode := 422 } := by
  simp [register, findByEmail, hf, hu]

/-- Witness for C4 at a concrete duplicate-email, mismatched-confirmation
request. -/
theorem register_duplicate_email_wins_witness :
    (register 7 sampleStore
      { name := "A2", email := "alice@example.com"
        password := "pw1", confirmPassword := "pw2" }).1 =
      { status := ResponseStatus.Failed
        message := "Email is already in use"
        responseObject := none
        statusCode := 422 } :=
  register_duplicate_email_wins 7 sampleStore
    { name := "A2", email := "alice@example.com"
      password := "pw1", confirmPassword := "pw2" }
    alice rfl (by decide) (by decide)

/-- C5: with a not-yet-used email and mismatched password confirmation,
register returns the Failed/422 envelope with message "Passwords do not
match" and leaves the store unchanged. -/
theorem register_password_mismatch_no_mutation (salt : Nat) (store : Store)
    (req : RegisterRequest)
    (hf : store.fault = none)
    (hu : store.users.find? (fun v => v.email == req.email) = none)
    (hp : req.password ≠ req.confirmPassword) :
    register salt store req =
      ({ status := ResponseStatus.Failed
         message := "Passwords do not match"
         responseObject := none
         statusCode := 422 }, store) := by
  simp [register, findByEmail, hf, hu, hp]

/-- Witness for C5 at a concrete fresh-email, mismatched-confirmation
request. -/
theorem register_password_mismatch_no_mutation_witness :
    register 7 sampleStore
      { name := "Carol", email := "carol@example.com"
        password := "pw1", confirmPassword := "pw2" } =
      ({ status := ResponseStatus.Failed
         message := "Passwords do not match"
         responseObject := none
         statusCode := 422 }, sampleStore) :=
  register_password_mismatch_no_mutation 7 sampleStore
    { name := "Carol", email := "carol@example.com"
      password := "pw1", confirmPassword := "pw2" }
    rfl (by decide) (by decide)

/-- C6 counterexample: at a concrete environment where the two signing
secrets differ, the refresh token issued by generateRefreshToken is not
signed with the primary (login) secret, contradicting the claim. -/
theorem generateRefreshToken_primary_secret_counterexample :
    ¬ ((generateRefreshToken sampleEnv "u9").responseObject =
      some { refreshToken :=
        jwtSign (JwtPayload.userIdPayload "u9") (jwtSecret sampleEnv) "7d" }) := by
  decide

/-- C6 amended: for every userId, regardless of the store, the operation
returns Success/200 with a refresh token whose decoded payload userId
equals the input, expiry 7 days, signed with the web-login secret
(TOKEN_SECRET, the one used by loginWeb), not the login secret. -/
theorem generateRefreshToken_spec (env : Env) (userId : String) :
    generateRefreshToken env userId =
      { status := ResponseStatus.Success
        message := "Refresh token generated successfully"
        responseObject := some
          { refreshToken :=
              jwtSign (JwtPayload.userIdPayload userId) (tokenSecret env) "7d" }
        statusCode := 200 } :=
  rfl

/-- C7: for every email, a fault-free store makes checkEmailExist return
Success/200 with a boolean payload that is true exactly when an account
with that email exists, and only a store-level fault yields Failed/500. -/
theorem checkEmailExist_spec (store : Store) (email : String) :
    (store.fault = none →
      checkEmailExist store email =
        { status := ResponseStatus.Success
          message :=
            if (store.users.find? (fun v => v.email == email)).isSome then
              "Email exists"
            else
              "Email does not exist"
          responseObject := some
            { isExited := (store.users.find? (fun v => v.email == email)).isSome }
          statusCode := 200 }) ∧
    (∀ m, store.fault = some m →
      checkEmailExist store email =
        { status := ResponseStatus.Failed
          message := "Error checking email existence: " ++ m
          responseObject := none
          statusCode := 500 }) := by
  constructor
  · intro hf
    cases hu : store.users.find? (fun v => v.email == email) with
    | none => simp [checkEmailExist, findByEmail, hf, hu]
    | some u => simp [checkEmailExist, findByEmail, hf, hu]
  · intro m hm
    simp [checkEmailExist, findByEmail, hm]

/-- Witness for C7: at the concrete fault-free sample store the probe for a
registered email reports existence with Success/200. -/
theorem checkEmailExist_spec_witness :
    checkEmailExist sampleStore "alice@example.com" =
      { status := ResponseStatus.Success
        message := "Email exists"
        responseObject := some { isExited := true }
        statusCode := 200 } := by
  have h := (checkEmailExist_spec sampleStore "alice@example.com").1 rfl
  simpa using h

/-- C9: changePasswordAsync persists the bcrypt hash of the supplied
plaintext at the fixed work factor 10: the record written under the given
id holds exactly that hash, which verifies against the input plaintext and
against no other string. -/
theorem changePasswordAsync_hashes (salt : Nat) (store : Store)
    (id newPassword : String) (u : User)
    (hf : store.fault = none)
    (hu : store.users.find? (fun v => v.IdUser == id) = some u) :
    changePasswordAsync salt store id newPassword =
      Except.ok (some { u with password := bcryptHash 10 salt newPassword },
        { store with users := store.users.map (fun v =>
            if v.IdUser == id then
              { u with password := bcryptHash 10 salt newPassword }
            else v) }) ∧
    (bcryptHash 10 salt newPassword).cost = 10 ∧
    bcryptCompare newPassword (bcryptHash 10 salt newPassword) = true ∧
    (∀ p : String, p ≠ newPassword →
      bcryptCompare p (bcryptHash 10 salt newPassword) = false) := by
  refine ⟨?_, rfl, ?_, ?_⟩
  · simp [changePasswordAsync, hf, hu]
  · simp [bcryptCompare, bcryptHash]
  · intro p hp
    simp [bcryptCompare, bcryptHash, hp]

/-- Witness for C9 at a concrete store and password change. -/
theorem changePasswordAsync_hashes_witness :
    changePasswordAsync 5 sampleStore "u1" "newpw" =
      Except.ok (some { alice with password := bcryptHash 10 5 "newpw" },
        { sampleStore with users := sampleStore.users.map (fun v =>
            if v.IdUser == "u1" then
              { alice with password := bcryptHash 10 5 "newpw" }
            else v) }) ∧
    (bcryptHash 10 5 "newpw").cost = 10 ∧
    bcryptCompare "newpw" (bcryptHash 10 5 "newpw") = true ∧
    bcryptCompare "other" (bcryptHash 10 5 "newpw") = false := by
  have h := changePasswordAsync_hashes 5 sampleStore "u1" "newpw" alice rfl
    (by decide)
  exact ⟨h.1, h.2.1, h.2.2.1, h.2.2.2 "other" (by decide)⟩

/-- C10: when the account for the given email exists with a non-manager
role, loginWeb returns the same Failed/422 wrong-credentials envelope for
every password argument: the role gate runs before password verification,
so the password has no influence on the outcome. -/
theorem loginWeb_role_gate_before_password (env : Env) (store : Store)
    (email : String) (u : User)
    (hf : store.fault = none)
    (hu : store.users.find? (fun v => v.email == email) = some u)
    (hr : u.Role ≠ "client-manager") :
    ∀ password, loginWeb env store email password =
      { status := ResponseStatus.Failed
        message := "Email or Password is not correct"
        responseObject := none
        statusCode := 422 } := by
  intro password
  simp [loginWeb, findByEmail, hf, hu, hr]

/-- Witness for C10: the non-manager sample user is rejected by loginWeb at
an arbitrary concrete password. -/
theorem loginWeb_role_gate_before_password_witness :
    loginWeb sampleEnv sampleStore "alice@example.com" "xyz" =
      { status := ResponseStatus.Failed
        message := "Email or Password is not correct"
        responseObject := none
        statusCode := 422 } :=
  loginWeb_role_gate_before_password sampleEnv sampleStore "alice@example.com"
    alice rfl (by decide) (by decide) "xyz"

/-- Helper for the envelope invariant: every login envelope satisfies it. -/
theorem envelopeOk_login (env : Env) (store : Store) (email password : String) :
    envelopeOk (login env store email password) := by
  unfold login
  cases h : findByEmail store email with
  | error m => simp [envelopeOk]
  | ok o =>
    cases o with
    | none => simp [envelopeOk]
    | some u =>
      by_cases hc : bcryptCompare password u.password
      · simp [hc, envelopeOk]
      · simp [hc, envelopeOk]

/-- Helper for the envelope invariant: every loginWeb envelope satisfies
it. -/
theorem envelopeOk_loginWeb (env : Env) (store : Store) (email password : String) :
    envelopeOk (loginWeb env store email password) := by
  unfold loginWeb
  cases h : findByEmail store email with
  | error m => simp [envelopeOk]
  | ok o =>
    cases o with
    | none => simp [envelopeOk]
    | some u =>
      by_cases hr : u.Role = "client-manager"
      · by_cases hc : bcryptCompare password u.password
        · simp [hr, hc, envelopeOk]
        · simp [hr, hc, envelopeOk]
      · simp [hr, envelopeOk]

/-- Helper for the envelope invariant: every register envelope satisfies
it. -/
theorem envelopeOk_register (salt : Nat) (store : Store) (req : RegisterRequest) :
    envelopeOk (register salt store req).1 := by
  unfold register
  cases h : findByEmail store req.email with
  | error m => simp [envelopeOk]
  | ok o =>
    cases o with
    | none =>
      by_cases hp : req.password = req.confirmPassword
      · simp [hp, envelopeOk]
      · simp [hp, envelopeOk]
    | some u => simp [envelopeOk]

/-- Helper for the envelope invariant: every checkEmailExist envelope
satisfies it. -/
theorem envelopeOk_checkEmailExist (store : Store) (email : String) :
    envelopeOk (checkEmailExist store email) := by
  unfold checkEmailExist
  cases h : findByEmail store email with
  | error m => simp [envelopeOk]
  | ok o =>
    cases o with
    | none => simp [envelopeOk]
    | some u => simp [envelopeOk]

/-- Helper for the envelope invariant: every generateRefreshToken envelope
satisfies it. -/
theorem envelopeOk_generateRefreshToken (env : Env) (userId : String) :
    envelopeOk (generateRefreshToken env userId) := by
  simp [generateRefreshToken, envelopeOk]

/-- C8: every envelope any of the five public operations can return
satisfies the spec invariant: Failed implies absent payload, Success
implies a 200-range code, Failed implies a 4xx or 5xx code. -/
theorem authService_envelope_invariant (env : Env) (store : Store)
    (email password : String) (salt : Nat) (req : RegisterRequest)
    (userId : String) :
    envelopeOk (login env store email password) ∧
    envelopeOk (loginWeb env store email password) ∧
    envelopeOk (register salt store req).1 ∧
    envelopeOk (checkEmailExist store email) ∧
    envelopeOk (generateRefreshToken env userId) :=
  ⟨envelopeOk_login env store email password,
   envelopeOk_loginWeb env store email password,
   envelopeOk_register salt store req,
   envelopeOk_checkEmailExist store email,
   envelopeOk_generateRefreshToken env userId⟩
